import Mathlib

/-!
Verification of the `Authorization` component of
`synthesizer/process/src/stack/authorization/mod.rs`.

The Rust type is `Authorization<N> { requests: Arc<RwLock<VecDeque<Request<N>>>> }`.
We embed the guarded `VecDeque<Request<N>>` as a `List Request` (front of the
deque = head of the list), and every method of `Authorization` as an explicit
state-passing function: read-only methods are pure functions of the chain,
while the mutating methods `next` and `push` also return the updated chain
(the in-place mutation performed under the write lock).

Aliasing between cloned handles and the independence created by `replicate`
are modelled by a small heap: a `World` is the list of live chain allocations
(each `Arc<RwLock<...>>` cell) and a `Handle` is an index into it, mirroring
that `#[derive(Clone)]` on `Authorization` clones the `Arc` (same allocation)
while `replicate` allocates a fresh cell holding a value copy of the chain.
-/

/-- The error kinds of the fallible operations, named after the spec's error
taxonomy: the `anyhow!` failures of `peek_next`/`next` on an empty deque are
the `EmptyChain` kind, and the `anyhow!` failure of `get` on a missing index
is the `IndexOutOfRange` kind (the Rust message interpolates the index). -/
inductive AuthError where
  | EmptyChain : AuthError
  | IndexOutOfRange : Nat → AuthError
deriving DecidableEq, Repr

/-- A `Request<N>` is opaque to this component: the only structure the code
inspects is `program_id()` and `function_name()` (as strings); the rest of the
request is an implementation-defined payload, modelled by a `Nat`. Requests
are cloneable and comparable by field. -/
structure Request where
  program_id : String
  function_name : String
  payload : Nat
deriving DecidableEq, Repr

/-- The guarded `VecDeque<Request<N>>`: front of the deque is the head. -/
abbrev RequestChain := List Request

namespace Authorization

/-- `impl From<Vec<Request<N>>> for Authorization<N>`:
`Self { requests: Arc::new(RwLock::new(VecDeque::from(requests))) }`.
`VecDeque::from` preserves the order of the vector. -/
def fromRequests (requests : List Request) : RequestChain :=
  requests

/-- `is_fee_private`: the chain has length exactly 1 and its sole element has
`program_id == "credits.aleo"` and `function_name == "fee_private"`. -/
def is_fee_private (c : RequestChain) : Bool :=
  match c with
  | [r] => r.program_id == "credits.aleo" && r.function_name == "fee_private"
  | _ => false

/-- `is_fee_public`: the chain has length exactly 1 and its sole element has
`program_id == "credits.aleo"` and `function_name == "fee_public"`. -/
def is_fee_public (c : RequestChain) : Bool :=
  match c with
  | [r] => r.program_id == "credits.aleo" && r.function_name == "fee_public"
  | _ => false

/-- `peek_next`: `self.requests.read().get(0).cloned().ok_or_else(...)`.
Read-only (read lock): a pure function of the chain. -/
def peek_next (c : RequestChain) : Except AuthError Request :=
  match c.head? with
  | some r => Except.ok r
  | none => Except.error AuthError.EmptyChain

/-- `next`: `self.requests.write().pop_front().ok_or_else(...)`.
Holds the write lock for the single `pop_front`; returns the result together
with the chain left in the lock afterwards (`pop_front` on an empty deque
returns `None` and leaves the deque unchanged). -/
def next (c : RequestChain) : Except AuthError Request × RequestChain :=
  match c with
  | [] => (Except.error AuthError.EmptyChain, [])
  | r :: rest => (Except.ok r, rest)

/-- `get`: `self.requests.read().get(index).cloned().ok_or_else(...)`. -/
def get (c : RequestChain) (index : Nat) : Except AuthError Request :=
  match c.get? index with
  | some r => Except.ok r
  | none => Except.error (AuthError.IndexOutOfRange index)

/-- `len`: `self.requests.read().len()`. -/
def len (c : RequestChain) : Nat :=
  c.length

/-- `is_empty`: `self.requests.read().is_empty()`. -/
def is_empty (c : RequestChain) : Bool :=
  c.isEmpty

/-- `push`: `self.requests.write().push_back(request)`. -/
def push (c : RequestChain) (request : Request) : RequestChain :=
  c ++ [request]

/-- `to_vec_deque`: `self.requests.read().clone()`. -/
def to_vec_deque (c : RequestChain) : RequestChain :=
  c

/-- Runs up to `fuel` calls of `next`, starting from chain `c`, stopping at
the first failing call; returns the successfully received requests in the
order the calls received them, together with the final chain. Because each
`next` holds the write lock for its entire `pop_front`, every concurrent
execution of the calls linearizes to such a sequence of atomic steps. -/
def runNext : Nat → RequestChain → List Request × RequestChain
  | 0, c => ([], c)
  | Nat.succ k, c =>
    match next c with
    | (Except.ok r, c') =>
      let p := runNext k c'
      (r :: p.1, p.2)
    | (Except.error _, c') => ([], c')

/-- The heap of live chain allocations: one entry per `Arc<RwLock<...>>` cell. -/
abbrev World := List RequestChain

/-- A handle to an allocation: the `Arc` pointer inside one `Authorization`. -/
structure Handle where
  ptr : Nat
deriving DecidableEq, Repr

/-- `#[derive(Clone)]` on `Authorization<N>` clones the `Arc`: the clone
points at the same allocation. -/
def Handle.clone (h : Handle) : Handle :=
  h

/-- The chain a handle observes (dereference the pointer). -/
def readChain (w : World) (h : Handle) : RequestChain :=
  w.getD h.ptr []

/-- `replicate`: `Self { requests: Arc::new(RwLock::new(self.requests.read().clone())) }` —
allocates a fresh cell holding a value copy of the current chain and returns
a handle to it. -/
def replicate (w : World) (h : Handle) : World × Handle :=
  (w ++ [readChain w h], ⟨w.length⟩)

/-- `push` performed through a handle, as a heap update. -/
def pushH (w : World) (h : Handle) (request : Request) : World :=
  w.set h.ptr (push (readChain w h) request)

/-- `len` observed through a handle. -/
def lenH (w : World) (h : Handle) : Nat :=
  len (readChain w h)

end Authorization

namespace Authorization

theorem runNext_eq (k : Nat) (c : RequestChain) :
    runNext k c = (c.take k, c.drop k) := by
  induction k generalizing c with
  | zero => simp [runNext]
  | succ k ih =>
    cases c with
    | nil => simp [runNext, next]
    | cons r rest => simp [runNext, next, ih]

theorem readChain_set_self (w : World) (h : Handle) (c : RequestChain)
    (hi : h.ptr < w.length) : readChain (w.set h.ptr c) h = c := by
  rw [readChain, List.getD_eq_getD_get?, List.get?_set_eq_of_lt _ hi]
  rfl

theorem readChain_set_ne (w : World) (i : Nat) (h : Handle) (c : RequestChain)
    (hne : i ≠ h.ptr) : readChain (w.set i c) h = readChain w h := by
  rw [readChain, List.getD_eq_getD_get?, List.get?_set_ne _ _ hne,
    readChain, List.getD_eq_getD_get?]

theorem readChain_append_left (w w' : World) (h : Handle)
    (hp : h.ptr < w.length) : readChain (w ++ w') h = readChain w h := by
  rw [readChain, List.getD_append _ _ _ _ hp, readChain]

theorem readChain_append_length (w : World) (c : RequestChain) :
    readChain (w ++ [c]) ⟨w.length⟩ = c := by
  rw [readChain, List.getD_append_right _ _ _ _ (Nat.le_refl _)]
  simp

end Authorization

namespace Authorization

/-- Claim C1: constructing an Authorization from a non-empty request sequence
`S` and repeatedly calling `next()` until it fails yields exactly the elements
of `S`, in the original order, with no omission and no duplicate; the call at
which the drain stops fails with the `EmptyChain` error. -/
theorem C1_next_drains_in_order (S : List Request) (hS : S ≠ []) :
    (runNext S.length (fromRequests S)).1 = S ∧
    (next (runNext S.length (fromRequests S)).2).1 =
      Except.error AuthError.EmptyChain := by
  refine ⟨?_, ?_⟩
  · simp [runNext_eq, fromRequests]
  · simp [runNext_eq, fromRequests, next]

theorem C1_next_drains_in_order_witness :
    ([Request.mk "credits.aleo" "transfer" 0, Request.mk "credits.aleo" "join" 1] ≠
      ([] : List Request)) ∧
    ((runNext
        (List.length [Request.mk "credits.aleo" "transfer" 0, Request.mk "credits.aleo" "join" 1])
        (fromRequests
          [Request.mk "credits.aleo" "transfer" 0, Request.mk "credits.aleo" "join" 1])).1 =
      [Request.mk "credits.aleo" "transfer" 0, Request.mk "credits.aleo" "join" 1] ∧
    (next (runNext
        (List.length [Request.mk "credits.aleo" "transfer" 0, Request.mk "credits.aleo" "join" 1])
        (fromRequests
          [Request.mk "credits.aleo" "transfer" 0, Request.mk "credits.aleo" "join" 1])).2).1 =
      Except.error AuthError.EmptyChain) :=
  ⟨by decide,
    C1_next_drains_in_order
      [Request.mk "credits.aleo" "transfer" 0, Request.mk "credits.aleo" "join" 1] (by decide)⟩

/-- Claim C2: `is_fee_private` holds exactly when the chain consists of exactly
one request whose `(program_id, function_name)` is
`("credits.aleo", "fee_private")`, and analogously for `is_fee_public` with
`"fee_public"`; a chain of length different from 1 makes both predicates
`false`. -/
theorem C2_fee_classification (c : RequestChain) :
    (is_fee_private c = true ↔
      ∃ r, c = [r] ∧ r.program_id = "credits.aleo" ∧ r.function_name = "fee_private") ∧
    (is_fee_public c = true ↔
      ∃ r, c = [r] ∧ r.program_id = "credits.aleo" ∧ r.function_name = "fee_public") ∧
    (len c ≠ 1 → is_fee_private c = false ∧ is_fee_public c = false) := by
  rcases c with _ | ⟨r, _ | ⟨r', rest⟩⟩ <;>
    simp [is_fee_private, is_fee_public, len]

theorem C2_fee_classification_witness :
    (len ([] : RequestChain) ≠ 1) ∧
    (is_fee_private [] = false ∧ is_fee_public [] = false) ∧
    is_fee_private [Request.mk "credits.aleo" "fee_private" 7] = true :=
  ⟨by decide, (C2_fee_classification []).2.2 (by decide),
    (C2_fee_classification [Request.mk "credits.aleo" "fee_private" 7]).1.mpr
      ⟨Request.mk "credits.aleo" "fee_private" 7, rfl, rfl, rfl⟩⟩

end Authorization

namespace Authorization

/-- Claim C3: `replicate` allocates a fresh cell with a value copy of the
chain, so the replica equals the original at the instant of replication
(and the original is unchanged by replicating), while a later `push` through
either handle leaves the length observed through the other handle unchanged. -/
theorem C3_replicate_isolation (w : World) (h1 : Handle) (r : Request)
    (hp : h1.ptr < w.length) :
    readChain (replicate w h1).1 (replicate w h1).2 = readChain w h1 ∧
    readChain (replicate w h1).1 h1 = readChain w h1 ∧
    lenH (pushH (replicate w h1).1 h1 r) (replicate w h1).2 =
      lenH (replicate w h1).1 (replicate w h1).2 ∧
    lenH (pushH (replicate w h1).1 (replicate w h1).2 r) h1 =
      lenH (replicate w h1).1 h1 := by
  have hne : h1.ptr ≠ w.length := Nat.ne_of_lt hp
  simp only [replicate, pushH, lenH]
  refine ⟨readChain_append_length w _, readChain_append_left w _ h1 hp, ?_, ?_⟩
  · rw [readChain_set_ne _ _ _ _ hne]
  · rw [readChain_set_ne _ _ _ _ (Ne.symm hne)]

theorem C3_replicate_isolation_witness :
    ((Handle.mk 0).ptr < List.length [[Request.mk "p" "f" 0]]) ∧
    (readChain (replicate [[Request.mk "p" "f" 0]] (Handle.mk 0)).1
        (replicate [[Request.mk "p" "f" 0]] (Handle.mk 0)).2 =
      readChain [[Request.mk "p" "f" 0]] (Handle.mk 0) ∧
    readChain (replicate [[Request.mk "p" "f" 0]] (Handle.mk 0)).1 (Handle.mk 0) =
      readChain [[Request.mk "p" "f" 0]] (Handle.mk 0) ∧
    lenH (pushH (replicate [[Request.mk "p" "f" 0]] (Handle.mk 0)).1 (Handle.mk 0)
        (Request.mk "q" "g" 1))
        (replicate [[Request.mk "p" "f" 0]] (Handle.mk 0)).2 =
      lenH (replicate [[Request.mk "p" "f" 0]] (Handle.mk 0)).1
        (replicate [[Request.mk "p" "f" 0]] (Handle.mk 0)).2 ∧
    lenH (pushH (replicate [[Request.mk "p" "f" 0]] (Handle.mk 0)).1
        (replicate [[Request.mk "p" "f" 0]] (Handle.mk 0)).2 (Request.mk "q" "g" 1))
        (Handle.mk 0) =
      lenH (replicate [[Request.mk "p" "f" 0]] (Handle.mk 0)).1 (Handle.mk 0)) :=
  ⟨by decide,
    C3_replicate_isolation [[Request.mk "p" "f" 0]] (Handle.mk 0) (Request.mk "q" "g" 1)
      (by decide)⟩

/-- Claim C4: each `next()` holds the write lock for its entire `pop_front`,
so a concurrent execution of `m` `next()` calls on clones of one handle
linearizes to `m` atomic steps on the shared chain, which is `runNext m`.
In that linearization the successful calls receive exactly the first
`min m (len c)` elements, each from a distinct position and in chain order,
and the received requests followed by the leftover chain reassemble the
original chain: exactly-once FIFO delivery. -/
theorem C4_concurrent_next_exactly_once (m : Nat) (c : RequestChain) :
    (runNext m c).1 = c.take m ∧ (runNext m c).1 ++ (runNext m c).2 = c := by
  simp [runNext_eq, List.take_append_drop]

/-- Claim C5: on a chain with no elements, `peek_next` and `next` both fail
with the `EmptyChain` error, and the failed `next` leaves the chain unchanged
(`pop_front` on an empty deque returns `None` without mutating it). -/
theorem C5_empty_chain_errors (c : RequestChain) (hc : len c = 0) :
    peek_next c = Except.error AuthError.EmptyChain ∧
    next c = (Except.error AuthError.EmptyChain, c) := by
  have h : c = [] := List.eq_nil_of_length_eq_zero hc
  subst h
  exact ⟨rfl, rfl⟩

theorem C5_empty_chain_errors_witness :
    (len ([] : RequestChain) = 0) ∧
    (peek_next ([] : RequestChain) = Except.error AuthError.EmptyChain ∧
      next ([] : RequestChain) = (Except.error AuthError.EmptyChain, ([] : RequestChain))) :=
  ⟨rfl, C5_empty_chain_errors [] rfl⟩

/-- Claim C6: `get i` on an index below the length succeeds with the i-th
element (front to back) of the sequence returned by `to_vec_deque`, and on an
index at or above the length fails with `IndexOutOfRange i`; `get` only takes
the read lock, so neither case mutates the chain. -/
theorem C6_get_semantics (c : RequestChain) (i : Nat) :
    (i < len c → ∃ r, (to_vec_deque c).get? i = some r ∧ get c i = Except.ok r) ∧
    (len c ≤ i → get c i = Except.error (AuthError.IndexOutOfRange i)) := by
  constructor
  · intro hi
    refine ⟨c.get ⟨i, hi⟩, List.get?_eq_get hi, ?_⟩
    unfold get
    rw [List.get?_eq_get hi]
  · intro hi
    unfold get
    rw [List.get?_eq_none.mpr hi]

theorem C6_get_semantics_witness :
    ((0 < len [Request.mk "p" "f" 0] ∧
      ∃ r, (to_vec_deque [Request.mk "p" "f" 0]).get? 0 = some r ∧
        get [Request.mk "p" "f" 0] 0 = Except.ok r) ∧
    (len [Request.mk "p" "f" 0] ≤ 5 ∧
      get [Request.mk "p" "f" 0] 5 = Except.error (AuthError.IndexOutOfRange 5))) :=
  ⟨⟨by decide, (C6_get_semantics [Request.mk "p" "f" 0] 0).1 (by decide)⟩,
    ⟨by decide, (C6_get_semantics [Request.mk "p" "f" 0] 5).2 (by decide)⟩⟩

/-- Claim C7: `len` right after construction from `S` is `|S|`; a successful
`next` decreases `len` by exactly 1; a `push` increases `len` by exactly 1;
and `is_empty` holds exactly when `len` is 0. -/
theorem C7_length_dynamics (S : List Request) (c : RequestChain) (req : Request) :
    len (fromRequests S) = S.length ∧
    (∀ r c', next c = (Except.ok r, c') → len c' + 1 = len c) ∧
    len (push c req) = len c + 1 ∧
    (is_empty c = true ↔ len c = 0) := by
  refine ⟨rfl, ?_, ?_, ?_⟩
  · intro r c' h
    cases c with
    | nil => simp [next] at h
    | cons a rest =>
      simp only [next, Prod.mk.injEq] at h
      cases h.2
      simp [len]
  · simp [push, len]
  · cases c <;> simp [is_empty, len]

theorem C7_length_dynamics_witness :
    next [Request.mk "p" "f" 0] = (Except.ok (Request.mk "p" "f" 0), ([] : RequestChain)) ∧
    len ([] : RequestChain) + 1 = len [Request.mk "p" "f" 0] :=
  ⟨rfl, (C7_length_dynamics [] [Request.mk "p" "f" 0] (Request.mk "p" "f" 0)).2.1
    (Request.mk "p" "f" 0) [] rfl⟩

/-- Claim C8: `#[derive(Clone)]` clones the `Arc`, so a clone is the same
pointer; a `push` performed through any handle aliasing the same allocation
is visible, appended at the back, through every aliasing handle immediately
afterwards. -/
theorem C8_clone_aliasing (w : World) (h1 h2 : Handle) (r : Request)
    (halias : h1.ptr = h2.ptr) (hp : h1.ptr < w.length) :
    Handle.clone h1 = h1 ∧
    readChain (pushH w (Handle.clone h1) r) h2 = readChain w h2 ++ [r] := by
  refine ⟨rfl, ?_⟩
  show readChain (pushH w h1 r) h2 = readChain w h2 ++ [r]
  have hch : readChain w h1 = readChain w h2 := by
    rw [readChain, readChain, halias]
  rw [pushH, hch, halias]
  rw [readChain_set_self w h2 _ (halias ▸ hp)]
  rfl

theorem C8_clone_aliasing_witness :
    ((Handle.mk 0).ptr = (Handle.mk 0).ptr ∧
      (Handle.mk 0).ptr < List.length [([] : RequestChain)]) ∧
    (Handle.clone (Handle.mk 0) = Handle.mk 0 ∧
      readChain (pushH [([] : RequestChain)] (Handle.clone (Handle.mk 0))
          (Request.mk "p" "f" 0)) (Handle.mk 0) =
        readChain [([] : RequestChain)] (Handle.mk 0) ++ [Request.mk "p" "f" 0]) :=
  ⟨⟨rfl, by decide⟩,
    C8_clone_aliasing [([] : RequestChain)] (Handle.mk 0) (Handle.mk 0)
      (Request.mk "p" "f" 0) rfl (by decide)⟩

/-- Claim C9: on a non-empty chain, `peek_next` and an immediately following
`next` (no interleaving mutation) return equal request values; `peek_next`
only takes the read lock and is a pure function of the chain, so it removes
and modifies nothing. -/
theorem C9_peek_next_agree (c : RequestChain) (hc : c ≠ []) :
    ∃ r, peek_next c = Except.ok r ∧ (next c).1 = Except.ok r := by
  cases c with
  | nil => exact absurd rfl hc
  | cons a rest => exact ⟨a, rfl, rfl⟩

theorem C9_peek_next_agree_witness :
    ([Request.mk "p" "f" 0] ≠ ([] : List Request)) ∧
    (∃ r, peek_next [Request.mk "p" "f" 0] = Except.ok r ∧
      (next [Request.mk "p" "f" 0]).1 = Except.ok r) :=
  ⟨by decide, C9_peek_next_agree [Request.mk "p" "f" 0] (by decide)⟩

/-- Claim C10: constructing an Authorization from the empty sequence succeeds
(the constructor is total), and the result has length 0, is empty, is neither
fee-private nor fee-public, and both `peek_next` and `next` fail with the
`EmptyChain` error, `next` leaving the chain unchanged. -/
theorem C10_empty_construction :
    fromRequests [] = ([] : RequestChain) ∧
    len (fromRequests []) = 0 ∧
    is_empty (fromRequests []) = true ∧
    is_fee_private (fromRequests []) = false ∧
    is_fee_public (fromRequests []) = false ∧
    peek_next (fromRequests []) = Except.error AuthError.EmptyChain ∧
    next (fromRequests []) = (Except.error AuthError.EmptyChain, fromRequests []) :=
  ⟨rfl, rfl, rfl, rfl, rfl, rfl, rfl⟩

end Authorization
